import Mathlib

/-!
Verification of the interactive prompt engine of the pgdev repository
(src/utils/prompt.ts). The TypeScript source is embedded shallowly:

* JS strings that are edited character by character (editor buffer,
  multi-select filter, item labels) are modelled as `List Char`
  (abbreviated `Str`), an isomorphic representation of a JS string as a
  sequence of code units; string operations `slice`, `length`,
  concatenation become `List.take`/`List.drop`/`List.length`/`++`.
* Key tokens returned by `readKey()` are kept as Lean `String` literals
  and compared by equality, exactly as the source compares them.
* The caller-owned `Set<string>` of askMultiSelect is modelled as a
  `Finset Str` (membership is the only observable the source uses).
* `process.exit(0)` terminates the process at once; a JS `finally`
  block does not run when `process.exit` is invoked, so in the effect
  traces below the cleanup effects are appended on `return` paths only.
* Blocking loops are modelled as step functions on an explicit state,
  folded over the list of tokens produced by successive reads.
-/

namespace Pgdev

/-- A JS string as a sequence of code units. -/
abbrev Str := List Char

/-! ## Generic JS helpers -/

/-- Whitespace characters skipped by JS parseInt / trim (ASCII range). -/
def jsWhitespace (c : Char) : Bool :=
  c == ' ' || c == '\t' || c == '\n' || c == '\r' || c == '\x0b' || c == '\x0c'

/-- Model of JS `parseInt(s, 10)`: skip leading whitespace, optional
sign, then the longest digit prefix; `none` models `NaN` (no digits).
The source only parses short numeric tokens, so exact integer
arithmetic is faithful. -/
def parseIntJS (s : String) : Option Int :=
  let cs := s.toList.dropWhile (fun c => jsWhitespace c)
  let signAndRest : Int × List Char :=
    match cs with
    | '-' :: rest => (-1, rest)
    | '+' :: rest => (1, rest)
    | _ => (1, cs)
  let digits := signAndRest.2.takeWhile (fun c => c.isDigit)
  if digits.isEmpty then none
  else some (signAndRest.1 * ((digits.foldl (fun a c => a * 10 + (c.toNat - 48)) 0 : Nat) : Int))

/-- JS `split(sep)` for a single-character separator, structurally
recursive on the character list (JS: an empty string splits to one
empty piece; a trailing separator yields a trailing empty piece). -/
def splitOnChar (sep : Char) : Str → List Str
  | [] => [[]]
  | c :: cs =>
    match splitOnChar sep cs with
    | [] => if c = sep then [[], []] else [[c]]
    | h :: t => if c = sep then [] :: h :: t else (c :: h) :: t

/-- JS `s.split("\n")` on a String. -/
def splitLines (s : String) : List String :=
  (splitOnChar '\n' s.toList).map (fun l => String.mk l)

/-- JS `String.prototype.trim` (ASCII whitespace). -/
def trimJS (s : String) : String :=
  String.mk (((s.toList.dropWhile (fun c => jsWhitespace c)).reverse.dropWhile
    (fun c => jsWhitespace c)).reverse)

/-- JS `String.prototype.toLowerCase` (ASCII model, as `Char.toLower`). -/
def lowerJS (s : String) : String :=
  String.mk (s.toList.map Char.toLower)

/-- JS `String.prototype.padEnd` with spaces. -/
def padEnd (s : String) (n : Nat) : String :=
  s ++ String.mk (List.replicate (n - s.length) ' ')

/-- JS `String.prototype.padStart` with spaces. -/
def padStart (s : String) (n : Nat) : String :=
  String.mk (List.replicate (n - s.length) ' ') ++ s

/-- Source `truncate` (prompt.ts lines 23-27): clip to `maxLen`
appending a single ellipsis character; the available width can be
negative, hence `Int`. -/
def truncate (s : String) (maxLen : Int) : String :=
  if maxLen ≤ 0 then ""
  else if (s.length : Int) ≤ maxLen then s
  else String.mk (s.toList.take (maxLen - 1).toNat) ++ "…"

/-- picocolors `pc.cyan` with colors enabled. -/
def pcCyan (s : String) : String := "\x1b[36m" ++ s ++ "\x1b[39m"

/-- picocolors `pc.bold`. -/
def pcBold (s : String) : String := "\x1b[1m" ++ s ++ "\x1b[22m"

/-- picocolors `pc.dim`. -/
def pcDim (s : String) : String := "\x1b[2m" ++ s ++ "\x1b[22m"

/-- picocolors `pc.green`. -/
def pcGreen (s : String) : String := "\x1b[32m" ++ s ++ "\x1b[39m"

/-- picocolors `pc.inverse`. -/
def pcInverse (s : String) : String := "\x1b[7m" ++ s ++ "\x1b[27m"

/-! ## Menu Selector (`ask`, prompt.ts lines 29-176) -/

/-- Source interface `Option` (prompt.ts lines 5-9); named `MenuOption`
because `Option` is taken by the Lean prelude. -/
structure MenuOption where
  label : String
  description : String
  help : Option String := none
deriving DecidableEq

/-- Number of help lines an option contributes to the help-area sizing:
source `o.help ? o.help.split("\n").length : 0` (line 117); an absent
or empty (falsy) help string counts 0. -/
def helpLineCount (o : MenuOption) : Nat :=
  match o.help with
  | none => 0
  | some h => if h = "" then 0 else (splitLines h).length

/-- Source `maxHelpLines` (line 117): `Math.max(0, ...counts)`. -/
def maxHelpLines (options : List MenuOption) : Nat :=
  options.foldl (fun a o => max a (helpLineCount o)) 0

/-- Source `helpAreaHeight` (line 119): the help rows plus the blank
separator line, or 0 when no option has help text. -/
def helpAreaHeight (options : List MenuOption) : Nat :=
  if 0 < maxHelpLines options then 1 + maxHelpLines options else 0

/-- Source `totalHeight` (line 120): the redraw region height for the
option list rendered by `renderOptions`. -/
def totalHeight (options : List MenuOption) : Nat :=
  options.length + 2 + helpAreaHeight options

/-- Source `Math.max(...options.map((o) => o.label.length))` (line 31).
The JS spread over an empty list gives -Infinity; `ask` always renders
a nonempty list (the synthetic option is appended), so the 0 base is
unreachable there. -/
def maxLabelLen (options : List MenuOption) : Nat :=
  options.foldl (fun a o => max a o.label.length) 0

/-- Help lines of the currently selected option:
source `options[selected].help?.split("\n") ?? []` (line 51). -/
def helpLinesOf (options : List MenuOption) (selected : Nat) : List String :=
  match (options.getD selected ⟨"", "", none⟩).help with
  | some h => splitLines h
  | none => []

/-- One option row written by `renderOptions` (lines 36-46). -/
def optionRow (numW maxLabel : Nat) (descAvail : Int) (selected i : Nat)
    (o : MenuOption) : String :=
  let num := padStart (toString (i + 1) ++ ".") numW
  let lab := padEnd o.label maxLabel
  let desc := truncate o.description descAvail
  if i = selected then
    "  " ++ pcCyan ">" ++ " " ++ pcCyan num ++ " " ++ pcBold lab ++ "  " ++ pcDim desc
  else
    "    " ++ pcDim num ++ " " ++ lab ++ "  " ++ pcDim desc

/-- The help-area rows written by `renderOptions` (lines 49-60): one
blank separator row, then exactly `helpHeight` rows, each either a help
line of the selected option or an explicit clear-line escape. -/
def helpRows (cols : Nat) (options : List MenuOption) (selected helpHeight : Nat) :
    List String :=
  if 0 < helpHeight then
    let helpAvail : Int := (cols : Int) - 2
    let hl := helpLinesOf options selected
    "" :: (List.range helpHeight).map (fun i =>
      if i < hl.length then "  " ++ pcDim (truncate (hl.getD i "") helpAvail)
      else "\x1b[2K")
  else []

/-- All terminal rows written by one `renderOptions` pass
(prompt.ts lines 29-61), each list element being one row (the text
between two newlines). -/
def renderOptionsRows (cols : Nat) (options : List MenuOption) (selected : Nat)
    (hint : String) (helpHeight : Nat) : List String :=
  let maxLabel := maxLabelLen options
  let numW := (toString options.length ++ ".").length
  let descAvail : Int := (cols : Int) - 5 - numW - maxLabel - 2
  (List.range options.length).map
      (fun i => optionRow numW maxLabel descAvail selected i (options.getD i ⟨"", "", none⟩))
    ++ ["", "  " ++ pcDim hint]
    ++ helpRows cols options selected helpHeight

/-- The option list `ask` actually renders: caller options plus the
synthetic Back/Exit option (lines 104-107). -/
def mkAllOptions (options : List MenuOption) (isExit : Bool) : List MenuOption :=
  options ++ [⟨if isExit then "Exit" else "Back",
              if isExit then "" else "Return to previous menu", none⟩]

/-- Outcome of one iteration of the `ask` key loop (lines 131-168). -/
inductive AskStep where
  | cont (selected : Nat)
  | ret (r : Int)
  | exit
deriving DecidableEq

/-- One iteration of the `ask` raw-mode key loop (prompt.ts
lines 131-168), as a function of the current highlighted index and the
token returned by `readKey`. -/
def askStep (allOptions : List MenuOption) (exitIndex selected : Nat)
    (key : String) : AskStep :=
  if key = "\x1b[A" ∨ key = "\x1bOA" then
    .cont (if 0 < selected then selected - 1 else selected)
  else if key = "\x1b[B" ∨ key = "\x1bOB" then
    .cont (if selected < allOptions.length - 1 then selected + 1 else selected)
  else if key = "\r" ∨ key = "\n" then
    if selected = exitIndex then .ret (-1) else .ret (selected : Int)
  else if key = "\x7f" ∨ key = "\x08" then
    .ret (-1)
  else if key = "\x03" then
    .exit
  else
    match parseIntJS key with
    | some n =>
      if 1 ≤ n ∧ n ≤ (allOptions.length : Int) then
        if n - 1 = (exitIndex : Int) then .ret (-1) else .ret (n - 1)
      else .cont selected
    | none => .cont selected

/-- Outcome of running the `ask` loop on a finite list of read tokens. -/
inductive AskOutcome where
  | returned (r : Int)
  | exited
  | pending (selected : Nat)
deriving DecidableEq

/-- Run the `ask` key loop over a list of tokens from successive
`readKey()` calls; `pending` means the input was consumed with the
loop still blocked on the next read. -/
def askRun (allOptions : List MenuOption) (exitIndex : Nat) :
    Nat → List String → AskOutcome
  | selected, [] => .pending selected
  | selected, key :: ks =>
    match askStep allOptions exitIndex selected key with
    | .cont s => askRun allOptions exitIndex s ks
    | .ret r => .returned r
    | .exit => .exited

/-- Outcome of one round of the non-interactive fallback loop. -/
inductive FallbackStep where
  | ret (r : Int)
  | exit
  | reprompt
deriving DecidableEq

/-- One round of `askFallback` (prompt.ts lines 85-95): `none` models
`prompt()` returning null (end of stream). -/
def askFallbackStep (allOptions : List MenuOption) (exitIndex : Nat)
    (input : Option String) : FallbackStep :=
  match input with
  | none => .exit
  | some s =>
    match parseIntJS (trimJS s) with
    | some n =>
      if 1 ≤ n ∧ n ≤ (allOptions.length : Int) then
        if n - 1 = (exitIndex : Int) then .ret (-1) else .ret (n - 1)
      else .reprompt
    | none => .reprompt

/-! ## Dashboard (`askDashboard`, prompt.ts lines 204-388) -/

/-- Source interface `DashboardItem` (lines 209-214). -/
structure DashboardItem where
  key : String
  label : String
  value : String
  help : Option String := none
deriving DecidableEq

/-- Source interface `DashboardSection` (lines 204-207). -/
structure DashboardSection where
  title : String
  items : List DashboardItem
deriving DecidableEq

/-- Source interface `DashboardAction` (lines 216-219). -/
structure DashboardAction where
  key : String
  label : String
deriving DecidableEq

/-- Source `DashboardResult` (lines 221-223). -/
inductive DashboardResult where
  | item (key : String)
  | action (key : String)
deriving DecidableEq

/-- Lookup in the map built by
`new Map(actions.map((a) => [a.key.toLowerCase(), a.key]))` (line 317):
for duplicate lowercased keys the later entry wins, and the original
case of the key is returned. -/
def actionLookup (actions : List DashboardAction) (k : String) : Option String :=
  match actions.reverse.find? (fun a => lowerJS a.key = k) with
  | some a => some a.key
  | none => none

/-- Outcome of one iteration of the `askDashboard` key loop. -/
inductive DashStep where
  | cont (selected : Nat)
  | ret (r : Option DashboardResult)
  | exit
deriving DecidableEq

/-- One iteration of the `askDashboard` raw-mode key loop (prompt.ts
lines 349-383). -/
def dashStep (allItems : List DashboardItem) (actions : List DashboardAction)
    (selected : Nat) (key : String) : DashStep :=
  if key = "\x1b[A" ∨ key = "\x1bOA" then
    .cont (if 0 < selected then selected - 1 else selected)
  else if key = "\x1b[B" ∨ key = "\x1bOB" then
    .cont (if selected < allItems.length - 1 then selected + 1 else selected)
  else if key = "\r" ∨ key = "\n" then
    .ret (some (.item ((allItems.getD selected ⟨"", "", "", none⟩).key)))
  else if key = "\x1b" ∨ key = "\x7f" ∨ key = "\x08" then
    .ret none
  else if key = "\x03" then
    .exit
  else
    match actionLookup actions (lowerJS key) with
    | some orig => .ret (some (.action orig))
    | none =>
      match parseIntJS key with
      | some n =>
        if 1 ≤ n ∧ n ≤ (allItems.length : Int) then
          .ret (some (.item ((allItems.getD (n - 1).toNat ⟨"", "", "", none⟩).key)))
        else .cont selected
      | none => .cont selected

/-- Outcome of one round of the dashboard non-interactive fallback. -/
inductive DashFallback where
  | ret (r : Option DashboardResult)
  | reprompt
deriving DecidableEq

/-- One round of the `askDashboard` non-TTY fallback loop (prompt.ts
lines 336-345): `none` models `prompt()` returning null. -/
def dashFallbackStep (allItems : List DashboardItem) (actions : List DashboardAction)
    (input : Option String) : DashFallback :=
  match input with
  | none => .ret none
  | some s =>
    let trimmed := lowerJS (trimJS s)
    match actionLookup actions trimmed with
    | some orig => .ret (some (.action orig))
    | none =>
      match parseIntJS trimmed with
      | some n =>
        if 1 ≤ n ∧ n ≤ (allItems.length : Int) then
          .ret (some (.item ((allItems.getD (n - 1).toNat ⟨"", "", "", none⟩).key)))
        else .reprompt
      | none => .reprompt

/-! ## Raw line editor (`readLineRaw`, prompt.ts lines 488-708) -/

/-- Source interface `CompletionResult` (lines 396-400); the source
fields `prefix` and `matches` are renamed `pfx` and `matchList`
(both are Lean keywords). -/
structure CompletionResult where
  matchList : List Str
  completed : Str
  pfx : Str
deriving DecidableEq

/-- The mutable locals of `readLineRaw` (lines 496-508). -/
structure EditorState where
  buffer : Str
  cursor : Nat
  compMatches : List Str
  compPfx : Str
  selectMode : Bool
  selectIndex : Nat
  selectCols : Nat
  savedBuffer : Str
  savedCursor : Nat
deriving DecidableEq

/-- Initial editor state (lines 498-508). -/
def initEditorState : EditorState := ⟨[], 0, [], [], false, 0, 1, [], 0⟩

/-- Source `clearComp` (lines 510-515). -/
def clearComp (st : EditorState) : EditorState :=
  { st with compMatches := [], compPfx := [], selectMode := false, selectIndex := 0 }

/-- Source `applySelection(idx)` (lines 517-520), together with the
assignment of `selectIndex` that every caller performs just before:
buffer becomes prefix plus the selected match, cursor jumps to its
end. Out-of-range indices are unreachable (select mode keeps
`selectIndex < compMatches.length`). -/
def applySelectionAt (st : EditorState) (idx : Nat) : EditorState :=
  let buf := st.compPfx ++ st.compMatches.getD idx []
  { st with selectIndex := idx, buffer := buf, cursor := buf.length }

/-- Source `completionGridCols` (lines 465-469); JS `Math.floor` on a
possibly negative quotient is floor division `Int.fdiv`. -/
def completionGridCols (items : List Str) (width : Nat) : Nat :=
  if items.length = 0 then 1
  else
    let maxLen := items.foldl (fun a s => max a s.length) 0
    (max 1 (Int.fdiv ((width : Int) - 4) ((maxLen : Int) + 2))).toNat

/-- The `while (last + selectCols < len) last += selectCols` loop of the
Up-arrow wraparound (lines 656-660), with fuel; `cols = 0` would loop
forever in JS and is unreachable (`completionGridCols` returns ≥ 1). -/
def lastInColumnAux : Nat → Nat → Nat → Nat → Nat
  | 0, last, _, _ => last
  | fuel + 1, last, cols, len =>
    if last + cols < len then lastInColumnAux fuel (last + cols) cols len else last

/-- Bottom cell of the grid column `col` (lines 656-660). -/
def lastInColumn (col cols len : Nat) : Nat :=
  lastInColumnAux len col cols len

/-- Select-mode grid navigation target index (lines 637-661). -/
def gridNav (st : EditorState) (key : String) : Nat :=
  let len := st.compMatches.length
  if key = "\x1b[C" ∨ key = "\x1bOC" then (st.selectIndex + 1) % len
  else if key = "\x1b[D" ∨ key = "\x1bOD" then (st.selectIndex + len - 1) % len
  else if key = "\x1b[B" ∨ key = "\x1bOB" then
    if st.selectIndex + st.selectCols < len then st.selectIndex + st.selectCols
    else st.selectIndex % st.selectCols
  else
    if st.selectCols ≤ st.selectIndex then st.selectIndex - st.selectCols
    else lastInColumn (st.selectIndex % st.selectCols) st.selectCols len

/-- Normal (non-completion) key processing of `readLineRaw`
(lines 677-701): cursor movement, insertion and deletion. -/
def normalKey (st : EditorState) (key : String) : EditorState :=
  if key = "\x7f" ∨ key = "\x08" then
    if 0 < st.cursor then
      { st with buffer := st.buffer.take (st.cursor - 1) ++ st.buffer.drop st.cursor,
                cursor := st.cursor - 1 }
    else st
  else if key = "\x1b[D" ∨ key = "\x1bOD" then
    if 0 < st.cursor then { st with cursor := st.cursor - 1 } else st
  else if key = "\x1b[C" ∨ key = "\x1bOC" then
    if st.cursor < st.buffer.length then { st with cursor := st.cursor + 1 } else st
  else if key = "\x1b[H" ∨ key = "\x1bOH" ∨ key = "\x1b[1~" ∨ key = "\x01" then
    { st with cursor := 0 }
  else if key = "\x1b[F" ∨ key = "\x1bOF" ∨ key = "\x1b[4~" ∨ key = "\x05" then
    { st with cursor := st.buffer.length }
  else if key = "\x1b[3~" then
    if st.cursor < st.buffer.length then
      { st with buffer := st.buffer.take st.cursor ++ st.buffer.drop (st.cursor + 1) }
    else st
  else if key = "\x15" then
    { st with buffer := st.buffer.drop st.cursor, cursor := 0 }
  else
    match key.toList with
    | [c] =>
      if 32 ≤ c.toNat then
        { st with buffer := st.buffer.take st.cursor ++ [c] ++ st.buffer.drop st.cursor,
                  cursor := st.cursor + 1 }
      else st
    | _ => st

/-- Outcome of one iteration of the `readLineRaw` key loop. -/
inductive RLStep where
  | cont (st : EditorState)
  | ret (r : Option Str)
  | exit
deriving DecidableEq

/-- One iteration of the `readLineRaw` key loop (prompt.ts
lines 544-704). `completer` is the optional completion provider. -/
def readLineStep (completer : Option (Str → Option CompletionResult)) (termCols : Nat)
    (st : EditorState) (key : String) : RLStep :=
  if key = "\r" ∨ key = "\n" then
    if st.selectMode then .cont (clearComp st)
    else .ret (some (clearComp st).buffer)
  else if key = "\x03" then
    .exit
  else if key = "\x04" ∧ st.buffer = [] then
    .ret none
  else if key = "\x1b" then
    if st.selectMode then
      .cont (clearComp { st with buffer := st.savedBuffer, cursor := st.savedCursor })
    else if 0 < st.compMatches.length then .cont (clearComp st)
    else .ret none
  else if key = "\t" ∧ completer.isSome then
    if 1 < st.compMatches.length then
      if st.selectMode = false then
        .cont (applySelectionAt
          { st with selectMode := true,
                    selectCols := completionGridCols st.compMatches termCols,
                    savedBuffer := st.buffer, savedCursor := st.cursor } 0)
      else
        .cont (applySelectionAt st ((st.selectIndex + 1) % st.compMatches.length))
    else
      match completer with
      | some comp =>
        match comp (st.buffer.take st.cursor) with
        | some result =>
          let st1 := { st with buffer := result.completed ++ st.buffer.drop st.cursor,
                               cursor := result.completed.length }
          .cont (if 1 < result.matchList.length then
                   { st1 with compMatches := result.matchList, compPfx := result.pfx }
                 else st1)
        | none => .cont st
      | none => .cont st
  else if key = "\x1b[Z" ∧ st.selectMode then
    .cont (applySelectionAt st ((st.selectIndex + st.compMatches.length - 1) % st.compMatches.length))
  else if st.selectMode ∧ (key = "\x1b[C" ∨ key = "\x1bOC" ∨ key = "\x1b[D" ∨ key = "\x1bOD"
      ∨ key = "\x1b[B" ∨ key = "\x1bOB" ∨ key = "\x1b[A" ∨ key = "\x1bOA") then
    .cont (applySelectionAt st (gridNav st key))
  else
    .cont (normalKey
      (if st.selectMode then clearComp st
       else if 0 < st.compMatches.length then clearComp st
       else st) key)

/-- State after one key, the state frozen once the call has returned. -/
def rlStepState (completer : Option (Str → Option CompletionResult)) (termCols : Nat)
    (st : EditorState) (key : String) : EditorState :=
  match readLineStep completer termCols st key with
  | .cont s => s
  | _ => st

/-! ## Multi-select filter grid (`askMultiSelect`, prompt.ts lines 710-986) -/

/-- Source `maxItemLen` (line 719): longest label of the full item list
(`Math.max` over a nonempty list; `askMultiSelect` returns before this
point when `items` is empty). -/
def maxItemLen (items : List Str) : Nat :=
  items.foldl (fun a s => max a s.length) 0

/-- Source grid column count (lines 718-721): computed once at entry
from the full unfiltered item list;
`cellWidth = maxItemLen + 6`, `cols = max(1, floor((termCols - 2) / cellWidth))`. -/
def msCols (termCols : Nat) (items : List Str) : Nat :=
  (max 1 (Int.fdiv ((termCols : Int) - 2) ((maxItemLen items : Int) + 6))).toNat

/-- Source `getFiltered` (lines 729-733): case-insensitive substring
filter; an empty filter returns the item list itself. -/
def getFiltered (items : List Str) (filter : Str) : List Str :=
  if filter = [] then items
  else
    let lower := filter.map Char.toLower
    items.filter (fun i => decide (lower <:+: i.map Char.toLower))

/-- The mutable locals of `askMultiSelect` (lines 724-727) together
with the caller-owned selected set (mutated in place by the source). -/
structure MultiState where
  filter : Str
  filterCursor : Nat
  selectMode : Bool
  selectIndex : Nat
  selected : Finset Str
deriving DecidableEq

/-- Outcome of one iteration of the `askMultiSelect` key loop; `ret`
carries the state because the caller observes the mutated set. -/
inductive MSStep where
  | cont (st : MultiState)
  | ret (st : MultiState)
  | exit
deriving DecidableEq

/-- The Space/Enter toggle of one item (lines 874-884). -/
def toggleItem (s : Finset Str) (x : Str) : Finset Str :=
  if x ∈ s then s.erase x else insert x s

/-- The `for (const item of filtered) selected.delete(item)` loop. -/
def eraseAll (s : Finset Str) (l : List Str) : Finset Str :=
  l.foldl Finset.erase s

/-- The `for (const item of filtered) selected.add(item)` loop. -/
def insertAll (s : Finset Str) (l : List Str) : Finset Str :=
  l.foldl (fun acc i => insert i acc) s

/-- Typing-mode key handling of `askMultiSelect` (lines 901-978). -/
def typingStep (items : List Str) (st : MultiState) (key : String) : MSStep :=
  if key = "\x1b[A" ∨ key = "\x1bOA" ∨ key = "\x1b[B" ∨ key = "\x1bOB"
      ∨ key = "\r" ∨ key = "\n" then
    if 0 < (getFiltered items st.filter).length then
      .cont { st with selectMode := true, selectIndex := 0 }
    else .cont st
  else if (key = "a" ∨ key = "A") ∧ st.filter = [] then
    let allSel := items.all (fun i => decide (i ∈ st.selected))
    .cont { st with selected := if allSel then ∅ else insertAll st.selected items }
  else if key = "\x1b[D" ∨ key = "\x1bOD" then
    .cont { st with filterCursor := if 0 < st.filterCursor then st.filterCursor - 1
                                    else st.filterCursor }
  else if key = "\x1b[C" ∨ key = "\x1bOC" then
    .cont { st with filterCursor := if st.filterCursor < st.filter.length then st.filterCursor + 1
                                    else st.filterCursor }
  else if key = "\x1b[H" ∨ key = "\x1bOH" ∨ key = "\x1b[1~" ∨ key = "\x01" then
    .cont { st with filterCursor := 0 }
  else if key = "\x1b[F" ∨ key = "\x1bOF" ∨ key = "\x1b[4~" ∨ key = "\x05" then
    .cont { st with filterCursor := st.filter.length }
  else if key = "\x15" then
    .cont { st with filter := st.filter.drop st.filterCursor, filterCursor := 0,
                    selectIndex := 0 }
  else if key = "\x1b[3~" then
    if st.filterCursor < st.filter.length then
      .cont { st with filter := st.filter.take st.filterCursor
                                  ++ st.filter.drop (st.filterCursor + 1),
                      selectIndex := 0 }
    else .cont st
  else
    match key.toList with
    | [c] =>
      if 32 ≤ c.toNat then
        let f := st.filter.take st.filterCursor ++ [c] ++ st.filter.drop st.filterCursor
        let len2 := (getFiltered items f).length
        .cont { st with filter := f, filterCursor := st.filterCursor + 1,
                        selectIndex := if len2 ≤ st.selectIndex then len2 - 1
                                       else st.selectIndex }
      else .cont st
    | _ => .cont st

/-- Select-mode key handling of `askMultiSelect` (lines 843-899); any
key not handled here exits select mode and is reprocessed by the typing
handler in the same iteration. -/
def selectStep (items : List Str) (cols : Nat) (st : MultiState) (key : String) : MSStep :=
  let filtered := getFiltered items st.filter
  if key = "\x1b[C" ∨ key = "\x1bOC" then
    .cont { st with selectIndex := (st.selectIndex + 1) % filtered.length }
  else if key = "\x1b[D" ∨ key = "\x1bOD" then
    .cont { st with selectIndex := (st.selectIndex + filtered.length - 1) % filtered.length }
  else if key = "\x1b[B" ∨ key = "\x1bOB" then
    .cont { st with selectIndex := if st.selectIndex + cols < filtered.length
                                   then st.selectIndex + cols
                                   else st.selectIndex % cols }
  else if key = "\x1b[A" ∨ key = "\x1bOA" then
    .cont { st with selectIndex := if cols ≤ st.selectIndex then st.selectIndex - cols
                                   else lastInColumn (st.selectIndex % cols) cols filtered.length }
  else if key = " " ∨ key = "\r" ∨ key = "\n" then
    .cont { st with selected := toggleItem st.selected (filtered.getD st.selectIndex []) }
  else if key = "a" ∨ key = "A" then
    let allSel := filtered.all (fun i => decide (i ∈ st.selected))
    .cont { st with selected := if allSel then eraseAll st.selected filtered
                                else insertAll st.selected filtered }
  else
    typingStep items { st with selectMode := false } key

/-- One iteration of the `askMultiSelect` key loop (prompt.ts
lines 787-979). `cols` is the grid column count captured by the loop
closure; the source computes it once at entry (line 721). -/
def multiStep (items : List Str) (cols : Nat) (st : MultiState) (key : String) : MSStep :=
  if key = "\x03" then .exit
  else if key = "\x1b" then
    if st.selectMode then .cont { st with selectMode := false } else .ret st
  else if key = "\x7f" ∨ key = "\x08" then
    if st.selectMode then .cont { st with selectMode := false }
    else if st.filter = [] then .ret st
    else if 0 < st.filterCursor then
      .cont { st with filter := st.filter.take (st.filterCursor - 1)
                                  ++ st.filter.drop st.filterCursor,
                      filterCursor := st.filterCursor - 1, selectIndex := 0 }
    else .cont st
  else if key = "\t" then
    if (getFiltered items st.filter).length = 0 then .cont st
    else if st.selectMode = false then .cont { st with selectMode := true, selectIndex := 0 }
    else .cont { st with selectIndex := (st.selectIndex + 1) % (getFiltered items st.filter).length }
  else if key = "\x1b[Z" then
    if st.selectMode ∧ 0 < (getFiltered items st.filter).length then
      .cont { st with selectIndex := (st.selectIndex + (getFiltered items st.filter).length - 1)
                                       % (getFiltered items st.filter).length }
    else .cont st
  else if st.selectMode then selectStep items cols st key
  else typingStep items st key

/-- The step function as `askMultiSelect` runs it: the column count is
the one captured at entry from the full item list. -/
def askMultiStep (termCols : Nat) (items : List Str) (st : MultiState)
    (key : String) : MSStep :=
  multiStep items (msCols termCols items) st key

/-- The grid column count in effect at a given loop state. The source
binds `cols` once before the loop (line 721) and never reassigns it, so
the value does not depend on the state at all. -/
def msColsUsed (termCols : Nat) (items : List Str) (_st : MultiState) : Nat :=
  msCols termCols items

/-- Outcome of running the `askMultiSelect` loop on a list of tokens. -/
inductive MSOutcome where
  | returned (st : MultiState)
  | exited
  | pending (st : MultiState)
deriving DecidableEq

/-- Run the `askMultiSelect` key loop over successive `readKey` tokens. -/
def askMultiRun (termCols : Nat) (items : List Str) :
    MultiState → List String → MSOutcome
  | st, [] => .pending st
  | st, key :: ks =>
    match askMultiStep termCols items st key with
    | .cont st2 => askMultiRun termCols items st2 ks
    | .ret st2 => .returned st2
    | .exit => .exited

/-- Initial `askMultiSelect` state for a caller-supplied selected set
(lines 724-727). -/
def initMultiState (selected : Finset Str) : MultiState :=
  ⟨[], 0, false, 0, selected⟩

/-! ## Lemmas: render geometry -/

lemma helpRows_length (cols : Nat) (options : List MenuOption) (selected helpHeight : Nat) :
    (helpRows cols options selected helpHeight).length =
      if 0 < helpHeight then 1 + helpHeight else 0 := by
  unfold helpRows
  split <;> simp [Nat.add_comm]

lemma renderOptionsRows_length (cols : Nat) (options : List MenuOption) (selected : Nat)
    (hint : String) (helpHeight : Nat) :
    (renderOptionsRows cols options selected hint helpHeight).length =
      options.length + 2 + (if 0 < helpHeight then 1 + helpHeight else 0) := by
  simp [renderOptionsRows, helpRows_length]
  omega

lemma helpRows_getD_pad (cols : Nat) (options : List MenuOption) (selected helpHeight i : Nat)
    (hh : 0 < helpHeight) (hi : (helpLinesOf options selected).length ≤ i)
    (hlt : i < helpHeight) :
    (helpRows cols options selected helpHeight).getD (i + 1) "?" = "\x1b[2K" := by
  unfold helpRows
  rw [if_pos hh, List.getD_cons_succ, List.getD_eq_getElem?_getD, List.getElem?_map]
  rw [List.getElem?_range hlt]
  simp [Nat.not_lt.mpr hi]

/-- C1: the number of terminal rows written by one Menu Selector render
pass equals the precomputed region height (option count + 2 + help area
height); the count does not depend on the highlighted index, so it is
the same before the first render and after any sequence of
pure-navigation key events; and when any option has help text the
render emits exactly `maxHelpLines` help rows, padding with explicitly
cleared blank rows beyond the help lines of the selected option. -/
theorem menu_redraw_height_stable (cols : Nat) (options : List MenuOption)
    (hint : String) (selected : Nat) :
    (renderOptionsRows cols options selected hint (maxHelpLines options)).length
        = totalHeight options
  ∧ (∀ sel2 : Nat,
      (renderOptionsRows cols options selected hint (maxHelpLines options)).length
        = (renderOptionsRows cols options sel2 hint (maxHelpLines options)).length)
  ∧ (0 < maxHelpLines options →
      (helpRows cols options selected (maxHelpLines options)).length
          = 1 + maxHelpLines options
      ∧ ∀ i : Nat, (helpLinesOf options selected).length ≤ i →
          i < maxHelpLines options →
          (helpRows cols options selected (maxHelpLines options)).getD (i + 1) "?"
            = "\x1b[2K") := by
  refine ⟨?_, fun sel2 => ?_, fun hh => ⟨?_, fun i hi hlt => ?_⟩⟩
  · rw [renderOptionsRows_length]
    unfold totalHeight helpAreaHeight
    rfl
  · rw [renderOptionsRows_length, renderOptionsRows_length]
  · rw [helpRows_length, if_pos hh]
  · exact helpRows_getD_pad cols options selected (maxHelpLines options) i hh hi hlt

/-- Witness for `menu_redraw_height_stable` at a concrete option list
whose first option has one help line. -/
theorem menu_redraw_height_stable_witness :
    0 < maxHelpLines [⟨"A", "d", some "x"⟩, ⟨"B", "e", none⟩]
  ∧ (renderOptionsRows 80 [⟨"A", "d", some "x"⟩, ⟨"B", "e", none⟩] 1 "hint"
        (maxHelpLines [⟨"A", "d", some "x"⟩, ⟨"B", "e", none⟩])).length
      = totalHeight [⟨"A", "d", some "x"⟩, ⟨"B", "e", none⟩]
  ∧ (helpRows 80 [⟨"A", "d", some "x"⟩, ⟨"B", "e", none⟩] 1
        (maxHelpLines [⟨"A", "d", some "x"⟩, ⟨"B", "e", none⟩])).getD 1 "?"
      = "\x1b[2K" :=
  ⟨by decide,
   (menu_redraw_height_stable 80 [⟨"A", "d", some "x"⟩, ⟨"B", "e", none⟩] "hint" 1).1,
   ((menu_redraw_height_stable 80 [⟨"A", "d", some "x"⟩, ⟨"B", "e", none⟩] "hint" 1).2.2
       (by decide)).2 0 (by decide) (by decide)⟩

/-! ## Effect traces for the raw-mode sessions

The source acquires raw mode just before each key loop and releases it
in a `finally` block. JS `finally` runs on `return` but not when
`process.exit()` is invoked (the process terminates inside the call,
with no unwinding), so the traces below append the cleanup effects on
return paths only, and the Ctrl-C branch ends the trace at
`exitProcess`. -/

/-- One observable terminal/process effect. -/
inductive Effect where
  | setRawMode (enabled : Bool)
  | clearRegion (n : Nat)
  | render
  | writeStr
  | exitProcess
deriving DecidableEq

/-- The cleanup block of `ask` (prompt.ts lines 169-175): leave raw
mode, then erase the help area when one was reserved. -/
def askCleanup (allOptions : List MenuOption) : List Effect :=
  .setRawMode false :: (if 0 < helpAreaHeight allOptions then [.writeStr] else [])

/-- The `ask` key loop (lines 131-168) as an effect trace: each
iteration optionally clears and redraws the region, and the loop ends
by returning (running the cleanup), exiting the process (skipping it),
or exhausting the supplied reads. -/
def askLoopTrace (allOptions : List MenuOption) (exitIndex : Nat) :
    Nat → List String → List Effect × AskOutcome
  | sel, [] => ([], .pending sel)
  | sel, key :: ks =>
    if key = "\x1b[A" ∨ key = "\x1bOA" then
      if 0 < sel then
        let r := askLoopTrace allOptions exitIndex (sel - 1) ks
        (.clearRegion (totalHeight allOptions) :: .render :: r.1, r.2)
      else askLoopTrace allOptions exitIndex sel ks
    else if key = "\x1b[B" ∨ key = "\x1bOB" then
      if sel < allOptions.length - 1 then
        let r := askLoopTrace allOptions exitIndex (sel + 1) ks
        (.clearRegion (totalHeight allOptions) :: .render :: r.1, r.2)
      else askLoopTrace allOptions exitIndex sel ks
    else if key = "\r" ∨ key = "\n" then
      (askCleanup allOptions, .returned (if sel = exitIndex then -1 else (sel : Int)))
    else if key = "\x7f" ∨ key = "\x08" then
      (askCleanup allOptions, .returned (-1))
    else if key = "\x03" then
      ([.exitProcess], .exited)
    else
      match parseIntJS key with
      | some n =>
        if 1 ≤ n ∧ n ≤ (allOptions.length : Int) then
          if n - 1 = (exitIndex : Int) then (askCleanup allOptions, .returned (-1))
          else (.clearRegion (totalHeight allOptions) :: .render :: askCleanup allOptions,
                .returned (n - 1))
        else askLoopTrace allOptions exitIndex sel ks
      | none => askLoopTrace allOptions exitIndex sel ks

/-- Full `ask` session trace: initial render (line 127), raw mode on
(line 129), then the key loop from selection 0. -/
def askTrace (allOptions : List MenuOption) (exitIndex : Nat) (keys : List String) :
    List Effect × AskOutcome :=
  let r := askLoopTrace allOptions exitIndex 0 keys
  (.render :: .setRawMode true :: r.1, r.2)

/-- Outcome of running the `readLineRaw` loop on a list of tokens. -/
inductive RLOutcome where
  | returned (r : Option Str)
  | exited
  | pending (st : EditorState)
deriving DecidableEq

/-- The `readLineRaw` key loop (lines 544-704) as an effect trace. The
Ctrl-C branch (lines 561-566) renders, writes a newline and calls
`process.exit(0)` inside the try block, so no `setRawMode false`
appears on that path; return paths run the finally (line 706). -/
def readLineLoopTrace (completer : Option (Str → Option CompletionResult)) (termCols : Nat) :
    EditorState → List String → List Effect × RLOutcome
  | st, [] => ([], .pending st)
  | st, key :: ks =>
    match readLineStep completer termCols st key with
    | .cont st2 =>
      let r := readLineLoopTrace completer termCols st2 ks
      (.render :: r.1, r.2)
    | .ret v => ([.render, .writeStr, .setRawMode false], .returned v)
    | .exit => ([.render, .writeStr, .exitProcess], .exited)

/-- Full `readLineRaw` session trace: prompt write (line 541), raw mode
on (line 542), then the key loop from the empty buffer. -/
def readLineTrace (completer : Option (Str → Option CompletionResult)) (termCols : Nat)
    (keys : List String) : List Effect × RLOutcome :=
  let r := readLineLoopTrace completer termCols initEditorState keys
  (.writeStr :: .setRawMode true :: r.1, r.2)

/-! ## Lemmas: key dispatch in `ask` and `askDashboard` -/

lemma parse_key_ne {key : String} {m : Int} (hp : parseIntJS key = some m)
    (lit : String) (hl : parseIntJS lit = none) : key ≠ lit := by
  intro h
  rw [h, hl] at hp
  exact Option.noConfusion hp

lemma askStep_enter_exit (allOptions : List MenuOption) (exitIndex : Nat) :
    askStep allOptions exitIndex exitIndex "\r" = .ret (-1) := by
  unfold askStep
  rw [if_neg (by decide), if_neg (by decide), if_pos (Or.inl rfl), if_pos rfl]

lemma askStep_backspace (allOptions : List MenuOption) (exitIndex sel : Nat) :
    askStep allOptions exitIndex sel "\x7f" = .ret (-1) := by
  unfold askStep
  rw [if_neg (by decide), if_neg (by decide), if_neg (by decide), if_pos (Or.inl rfl)]

lemma askStep_parsed (allOptions : List MenuOption) (exitIndex sel : Nat) (key : String)
    (m : Int) (hp : parseIntJS key = some m) :
    askStep allOptions exitIndex sel key =
      (if 1 ≤ m ∧ m ≤ (allOptions.length : Int) then
        if m - 1 = (exitIndex : Int) then .ret (-1) else .ret (m - 1)
      else .cont sel) := by
  unfold askStep
  rw [if_neg (not_or.mpr ⟨parse_key_ne hp _ (by decide), parse_key_ne hp _ (by decide)⟩),
      if_neg (not_or.mpr ⟨parse_key_ne hp _ (by decide), parse_key_ne hp _ (by decide)⟩),
      if_neg (not_or.mpr ⟨parse_key_ne hp _ (by decide), parse_key_ne hp _ (by decide)⟩),
      if_neg (not_or.mpr ⟨parse_key_ne hp _ (by decide), parse_key_ne hp _ (by decide)⟩),
      if_neg (parse_key_ne hp _ (by decide)), hp]

lemma askStep_empty (allOptions : List MenuOption) (exitIndex sel : Nat) :
    askStep allOptions exitIndex sel "" = .cont sel := by
  unfold askStep
  rw [if_neg (by decide), if_neg (by decide), if_neg (by decide), if_neg (by decide),
      if_neg (by decide), show parseIntJS "" = none from by decide]

lemma askRun_replicate_empty (allOptions : List MenuOption) (exitIndex sel n : Nat) :
    askRun allOptions exitIndex sel (List.replicate n "") = .pending sel := by
  induction n with
  | zero => rfl
  | succ k ih =>
    rw [List.replicate_succ]
    show askRun allOptions exitIndex sel ("" :: List.replicate k "") = _
    rw [askRun, askStep_empty]
    exact ih

lemma dashStep_empty (items : List DashboardItem) (actions : List DashboardAction)
    (dsel : Nat) (hact : actionLookup actions (lowerJS "") = none) :
    dashStep items actions dsel "" = .cont dsel := by
  unfold dashStep
  rw [if_neg (by decide), if_neg (by decide), if_neg (by decide), if_neg (by decide),
      if_neg (by decide), hact, show parseIntJS "" = none from by decide]

lemma readLineStep_empty_cont (completer : Option (Str → Option CompletionResult))
    (termCols : Nat) (st : EditorState) :
    ∃ st2, readLineStep completer termCols st "" = .cont st2 := by
  unfold readLineStep
  rw [if_neg (by decide), if_neg (by decide),
      if_neg (fun h => absurd h.1 (by decide)),
      if_neg (by decide),
      if_neg (fun h => absurd h.1 (by decide)),
      if_neg (fun h => absurd h.1 (by decide)),
      if_neg (fun h => by
        rcases h with ⟨-, h⟩
        rcases h with h | h | h | h | h | h | h | h <;> revert h <;> decide)]
  exact ⟨_, rfl⟩

lemma typingStep_empty_cont (items : List Str) (st : MultiState) :
    typingStep items st "" = .cont st := by
  unfold typingStep
  rw [if_neg (by decide),
      if_neg (fun h => by rcases h.1 with h | h <;> revert h <;> decide),
      if_neg (by decide), if_neg (by decide), if_neg (by decide), if_neg (by decide),
      if_neg (by decide), if_neg (by decide)]
  rfl

lemma multiStep_empty_cont (items : List Str) (cols : Nat) (st : MultiState) :
    ∃ st2, multiStep items cols st "" = .cont st2 := by
  unfold multiStep
  rw [if_neg (by decide), if_neg (by decide), if_neg (by decide), if_neg (by decide),
      if_neg (by decide)]
  by_cases hsm : st.selectMode = true
  · rw [if_pos hsm]
    unfold selectStep
    rw [if_neg (by decide), if_neg (by decide), if_neg (by decide), if_neg (by decide),
        if_neg (by decide), if_neg (by decide), typingStep_empty_cont]
    exact ⟨_, rfl⟩
  · rw [if_neg hsm, typingStep_empty_cont]
    exact ⟨_, rfl⟩

/-! ## Claim C7 -/

/-- C7: selecting the synthetic last option of the Menu Selector yields
the exit sentinel -1 on every route: Enter while it is highlighted, a
numeric token equal to its 1-based number, Backspace, and the numeric
route of the non-interactive fallback. -/
theorem menu_exit_index_consistent (options : List MenuOption) (isExit : Bool)
    (sel : Nat) (key input : String) :
    askStep (mkAllOptions options isExit) options.length options.length "\r" = .ret (-1)
  ∧ askStep (mkAllOptions options isExit) options.length sel "\x7f" = .ret (-1)
  ∧ (parseIntJS key = some ((options.length : Int) + 1) →
      askStep (mkAllOptions options isExit) options.length sel key = .ret (-1))
  ∧ (parseIntJS (trimJS input) = some ((options.length : Int) + 1) →
      askFallbackStep (mkAllOptions options isExit) options.length (some input)
        = .ret (-1)) := by
  have hlen : (mkAllOptions options isExit).length = options.length + 1 := by
    simp [mkAllOptions]
  refine ⟨askStep_enter_exit _ _, askStep_backspace _ _ _, fun hp => ?_, fun hp => ?_⟩
  · rw [askStep_parsed _ _ _ _ _ hp, hlen,
      if_pos (by constructor <;> omega : (1 : Int) ≤ (options.length : Int) + 1
        ∧ ((options.length : Int) + 1) ≤ ((options.length + 1 : Nat) : Int)),
      if_pos (by omega : ((options.length : Int) + 1 - 1) = (options.length : Int))]
  · simp only [askFallbackStep]
    rw [hp, hlen]
    have h1 : (1 : Int) ≤ (options.length : Int) + 1
        ∧ ((options.length : Int) + 1) ≤ ((options.length + 1 : Nat) : Int) := by
      constructor <;> omega
    have h2 : ((options.length : Int) + 1 - 1) = (options.length : Int) := by omega
    simp [h1, h2]

/-- Witness for `menu_exit_index_consistent`: a two-option menu where
the synthetic option is number 3; the key token 3 and the fallback
input with surrounding spaces both map to -1. -/
theorem menu_exit_index_consistent_witness :
    parseIntJS "3" = some ((([⟨"A", "", none⟩, ⟨"B", "", none⟩] : List MenuOption).length : Int) + 1)
  ∧ askStep (mkAllOptions [⟨"A", "", none⟩, ⟨"B", "", none⟩] true) 2 0 "3" = .ret (-1)
  ∧ askFallbackStep (mkAllOptions [⟨"A", "", none⟩, ⟨"B", "", none⟩] true) 2 (some " 3 ")
      = .ret (-1) :=
  ⟨by decide,
   (menu_exit_index_consistent [⟨"A", "", none⟩, ⟨"B", "", none⟩] true 0 "3" " 3 ").2.2.1
     (by decide),
   (menu_exit_index_consistent [⟨"A", "", none⟩, ⟨"B", "", none⟩] true 0 "3" " 3 ").2.2.2
     (by decide)⟩

/-! ## Claim C5 -/

/-- C5 counterexample: the forward-Delete token does not cancel: in the
Menu Selector it leaves the loop running with the selection unchanged
(instead of returning the exit sentinel), and in the Dashboard it does
not return none. -/
theorem delete_key_counterexample :
    askStep (mkAllOptions [⟨"A", "", none⟩] true) 1 0 "\x1b[3~" = .cont 0
  ∧ askStep (mkAllOptions [⟨"A", "", none⟩] true) 1 0 "\x1b[3~" ≠ .ret (-1)
  ∧ dashStep [⟨"k", "l", "v", none⟩] [] 0 "\x1b[3~" = .cont 0
  ∧ dashStep [⟨"k", "l", "v", none⟩] [] 0 "\x1b[3~" ≠ .ret none := by
  decide

/-- C5 amended: the forward-Delete token `ESC [ 3 ~` matches no branch
of the Menu Selector or Dashboard key loops, so both continue with the
selection unchanged; Backspace is the key that returns the exit
sentinel in the Menu Selector and none in the Dashboard (the Dashboard
also accepts lone Escape). -/
theorem delete_key_ignored (allOptions : List MenuOption) (exitIndex sel : Nat)
    (items : List DashboardItem) (actions : List DashboardAction) (dsel : Nat)
    (hact : actionLookup actions (lowerJS "\x1b[3~") = none) :
    askStep allOptions exitIndex sel "\x1b[3~" = .cont sel
  ∧ askStep allOptions exitIndex sel "\x7f" = .ret (-1)
  ∧ dashStep items actions dsel "\x1b[3~" = .cont dsel
  ∧ dashStep items actions dsel "\x7f" = .ret none := by
  refine ⟨?_, askStep_backspace _ _ _, ?_, ?_⟩
  · unfold askStep
    rw [if_neg (by decide), if_neg (by decide), if_neg (by decide), if_neg (by decide),
        if_neg (by decide), show parseIntJS "\x1b[3~" = none from by decide]
  · unfold dashStep
    rw [if_neg (by decide), if_neg (by decide), if_neg (by decide), if_neg (by decide),
        if_neg (by decide), hact, show parseIntJS "\x1b[3~" = none from by decide]
  · unfold dashStep
    rw [if_neg (by decide), if_neg (by decide), if_neg (by decide),
        if_pos (Or.inr (Or.inl rfl))]

/-- Witness for `delete_key_ignored` with a registered action hotkey. -/
theorem delete_key_ignored_witness :
    actionLookup [⟨"r", "Refresh"⟩] (lowerJS "\x1b[3~") = none
  ∧ askStep (mkAllOptions [⟨"A", "", none⟩] false) 1 1 "\x1b[3~" = .cont 1
  ∧ dashStep [⟨"k", "l", "v", none⟩] [⟨"r", "Refresh"⟩] 0 "\x1b[3~" = .cont 0 :=
  ⟨by decide,
   (delete_key_ignored (mkAllOptions [⟨"A", "", none⟩] false) 1 1
     [⟨"k", "l", "v", none⟩] [⟨"r", "Refresh"⟩] 0 (by decide)).1,
   (delete_key_ignored (mkAllOptions [⟨"A", "", none⟩] false) 1 1
     [⟨"k", "l", "v", none⟩] [⟨"r", "Refresh"⟩] 0 (by decide)).2.2.1⟩

/-! ## Claim C6 -/

/-- C6 counterexample: a zero-byte read produces the empty token; the
Menu Selector raw loop neither returns nor exits on it — its state is a
fixpoint, so end-of-stream spins instead of returning the exit
sentinel. -/
theorem eos_not_cancel_counterexample :
    askRun (mkAllOptions [⟨"A", "", none⟩] true) 1 0 ["", "", ""] = .pending 0
  ∧ askStep (mkAllOptions [⟨"A", "", none⟩] true) 1 0 "" = .cont 0 := by
  decide

/-- C6 amended: in the TTY raw-mode loops an end-of-stream read (empty
token) matches no key branch, so every primitive keeps looping with the
selection unchanged (the Menu Selector in particular stays pending
after any number of empty reads); only the non-TTY fallbacks treat
end-of-stream as a cancel, the Dashboard fallback returning none while
the Menu fallback terminates the process. -/
theorem eos_spins_raw_loops (allOptions : List MenuOption) (exitIndex sel n : Nat)
    (items : List DashboardItem) (actions : List DashboardAction) (dsel : Nat)
    (completer : Option (Str → Option CompletionResult)) (termCols : Nat)
    (est : EditorState) (msItems : List Str) (msCols2 : Nat) (mst : MultiState)
    (hact : actionLookup actions (lowerJS "") = none) :
    askRun allOptions exitIndex sel (List.replicate n "") = .pending sel
  ∧ dashStep items actions dsel "" = .cont dsel
  ∧ (∃ st2, readLineStep completer termCols est "" = .cont st2)
  ∧ (∃ st2, multiStep msItems msCols2 mst "" = .cont st2)
  ∧ askFallbackStep allOptions exitIndex none = .exit
  ∧ dashFallbackStep items actions none = .ret none :=
  ⟨askRun_replicate_empty allOptions exitIndex sel n,
   dashStep_empty items actions dsel hact,
   readLineStep_empty_cont completer termCols est,
   multiStep_empty_cont msItems msCols2 mst,
   rfl, rfl⟩

/-- Witness for `eos_spins_raw_loops` at concrete data. -/
theorem eos_spins_raw_loops_witness :
    actionLookup [⟨"r", "Refresh"⟩] (lowerJS "") = none
  ∧ askRun (mkAllOptions [⟨"A", "", none⟩] true) 1 0 (List.replicate 4 "") = .pending 0
  ∧ dashStep [⟨"k", "l", "v", none⟩] [⟨"r", "Refresh"⟩] 0 "" = .cont 0 :=
  ⟨by decide,
   (eos_spins_raw_loops (mkAllOptions [⟨"A", "", none⟩] true) 1 0 4
     [⟨"k", "l", "v", none⟩] [⟨"r", "Refresh"⟩] 0 none 80 initEditorState [['x']] 1
     (initMultiState ∅) (by decide)).1,
   (eos_spins_raw_loops (mkAllOptions [⟨"A", "", none⟩] true) 1 0 4
     [⟨"k", "l", "v", none⟩] [⟨"r", "Refresh"⟩] 0 none 80 initEditorState [['x']] 1
     (initMultiState ∅) (by decide)).2.1⟩

/-! ## Claim C2 -/

/-- C2: pressing Ctrl-C in a raw-mode primitive terminates the process
without the raw-mode release: in the `ask` and `readLineRaw` session
traces the Ctrl-C token ends the trace at `exitProcess` and no
`setRawMode false` effect occurs anywhere in it (the release sits in a
finally block that `process.exit` never reaches), and the Dashboard and
Multi-Select loops take the same process-exit branch on Ctrl-C. -/
theorem ctrlc_terminates_without_raw_mode_restore :
    ((askTrace (mkAllOptions [⟨"A", "", none⟩] true) 1 ["\x03"]).2 = .exited
      ∧ (askTrace (mkAllOptions [⟨"A", "", none⟩] true) 1 ["\x03"]).1
          = [.render, .setRawMode true, .exitProcess]
      ∧ Effect.setRawMode false ∉ (askTrace (mkAllOptions [⟨"A", "", none⟩] true) 1 ["\x03"]).1)
  ∧ ((readLineTrace none 80 ["\x03"]).2 = .exited
      ∧ Effect.exitProcess ∈ (readLineTrace none 80 ["\x03"]).1
      ∧ Effect.setRawMode false ∉ (readLineTrace none 80 ["\x03"]).1)
  ∧ dashStep [⟨"k", "l", "v", none⟩] [] 0 "\x03" = .exit
  ∧ multiStep [['x']] 1 (initMultiState ∅) "\x03" = .exit := by
  decide

/-! ## Lemmas: editor cursor bounds -/

lemma normalKey_inv (st : EditorState) (key : String)
    (hc : st.cursor ≤ st.buffer.length) :
    (normalKey st key).cursor ≤ (normalKey st key).buffer.length
  ∧ (normalKey st key).savedCursor = st.savedCursor
  ∧ (normalKey st key).savedBuffer = st.savedBuffer := by
  unfold normalKey
  split_ifs <;>
    try exact ⟨by first
      | (simp [List.length_take, List.length_drop]; omega)
      | simp [List.length_take, List.length_drop]
      | omega, rfl, rfl⟩
  split
  · split_ifs with h32
    · exact ⟨by simp [List.length_take, List.length_drop]; omega, rfl, rfl⟩
    · exact ⟨hc, rfl, rfl⟩
  · exact ⟨hc, rfl, rfl⟩

lemma readLineStep_inv (completer : Option (Str → Option CompletionResult)) (termCols : Nat)
    (st st2 : EditorState) (key : String)
    (h : readLineStep completer termCols st key = .cont st2)
    (hc : st.cursor ≤ st.buffer.length) (hs : st.savedCursor ≤ st.savedBuffer.length) :
    st2.cursor ≤ st2.buffer.length ∧ st2.savedCursor ≤ st2.savedBuffer.length := by
  unfold readLineStep at h
  split_ifs at h
  all_goals try (split at h)
  all_goals try (split at h)
  all_goals try split_ifs at h
  all_goals try simp at h
  all_goals try subst h
  all_goals try exact ⟨hc, hs⟩
  all_goals try exact ⟨hs, hs⟩
  all_goals try exact ⟨le_refl _, hc⟩
  all_goals try exact ⟨le_refl _, hs⟩
  all_goals try exact ⟨by simp only [List.length_append]; omega, hs⟩
  all_goals try exact
    ⟨(normalKey_inv st key hc).1,
     by rw [(normalKey_inv st key hc).2.1, (normalKey_inv st key hc).2.2]; exact hs⟩
  all_goals exact
    ⟨(normalKey_inv (clearComp st) key hc).1,
     by rw [(normalKey_inv (clearComp st) key hc).2.1,
            (normalKey_inv (clearComp st) key hc).2.2]
        exact hs⟩

lemma rlStepState_inv (completer : Option (Str → Option CompletionResult)) (termCols : Nat)
    (st : EditorState) (key : String)
    (hc : st.cursor ≤ st.buffer.length) (hs : st.savedCursor ≤ st.savedBuffer.length) :
    (rlStepState completer termCols st key).cursor
        ≤ (rlStepState completer termCols st key).buffer.length
  ∧ (rlStepState completer termCols st key).savedCursor
        ≤ (rlStepState completer termCols st key).savedBuffer.length := by
  unfold rlStepState
  cases hstep : readLineStep completer termCols st key with
  | cont s => exact readLineStep_inv completer termCols st s key hstep hc hs
  | ret r => exact ⟨hc, hs⟩
  | exit => exact ⟨hc, hs⟩

lemma foldl_rlStepState_inv (completer : Option (Str → Option CompletionResult))
    (termCols : Nat) (keys : List String) (st : EditorState)
    (hc : st.cursor ≤ st.buffer.length) (hs : st.savedCursor ≤ st.savedBuffer.length) :
    (keys.foldl (rlStepState completer termCols) st).cursor
        ≤ (keys.foldl (rlStepState completer termCols) st).buffer.length
  ∧ (keys.foldl (rlStepState completer termCols) st).savedCursor
        ≤ (keys.foldl (rlStepState completer termCols) st).savedBuffer.length := by
  induction keys generalizing st with
  | nil => exact ⟨hc, hs⟩
  | cons k ks ih =>
    rw [List.foldl_cons]
    exact ih (rlStepState completer termCols st k)
      (rlStepState_inv completer termCols st k hc hs).1
      (rlStepState_inv completer termCols st k hc hs).2

/-! ## Claim C8 -/

/-- C8: the line editor cursor is always a valid insertion point: for
every completion provider, terminal width, start state satisfying the
invariant, and every sequence of key events (navigation, insertion,
deletion, Ctrl-U, Tab completion, select-mode entry and navigation,
Escape restore), `0 ≤ cursor ≤ len(buffer)` holds after every event. -/
theorem editor_cursor_bounds (completer : Option (Str → Option CompletionResult))
    (termCols : Nat) (keys : List String) (st : EditorState)
    (hc : st.cursor ≤ st.buffer.length) (hs : st.savedCursor ≤ st.savedBuffer.length) :
    0 ≤ (keys.foldl (rlStepState completer termCols) st).cursor
  ∧ (keys.foldl (rlStepState completer termCols) st).cursor
      ≤ (keys.foldl (rlStepState completer termCols) st).buffer.length :=
  ⟨Nat.zero_le _, (foldl_rlStepState_inv completer termCols keys st hc hs).1⟩

/-- Witness for `editor_cursor_bounds`: a run from the initial state
through typing, two Tabs (completion then select mode), arrow
navigation, Escape restore and Backspace, with a two-match completer. -/
theorem editor_cursor_bounds_witness :
    initEditorState.cursor ≤ initEditorState.buffer.length
  ∧ initEditorState.savedCursor ≤ initEditorState.savedBuffer.length
  ∧ 0 ≤ (["x", "\t", "\t", "\x1b[C", "\x1b", "\x7f"].foldl
        (rlStepState (some (fun _ => some ⟨[['a', 'b'], ['a', 'c']], ['a'], []⟩)) 80)
        initEditorState).cursor
  ∧ (["x", "\t", "\t", "\x1b[C", "\x1b", "\x7f"].foldl
        (rlStepState (some (fun _ => some ⟨[['a', 'b'], ['a', 'c']], ['a'], []⟩)) 80)
        initEditorState).cursor
      ≤ (["x", "\t", "\t", "\x1b[C", "\x1b", "\x7f"].foldl
        (rlStepState (some (fun _ => some ⟨[['a', 'b'], ['a', 'c']], ['a'], []⟩)) 80)
        initEditorState).buffer.length :=
  ⟨by decide, by decide,
   (editor_cursor_bounds (some (fun _ => some ⟨[['a', 'b'], ['a', 'c']], ['a'], []⟩)) 80
     ["x", "\t", "\t", "\x1b[C", "\x1b", "\x7f"] initEditorState (by decide) (by decide)).1,
   (editor_cursor_bounds (some (fun _ => some ⟨[['a', 'b'], ['a', 'c']], ['a'], []⟩)) 80
     ["x", "\t", "\t", "\x1b[C", "\x1b", "\x7f"] initEditorState (by decide) (by decide)).2⟩

/-! ## Lemmas: multi-select set operations -/

lemma mem_insertAll (s : Finset Str) (l : List Str) (x : Str) :
    x ∈ insertAll s l ↔ x ∈ s ∨ x ∈ l := by
  induction l generalizing s with
  | nil => simp [insertAll]
  | cons a t ih =>
    show x ∈ insertAll (insert a s) t ↔ _
    rw [ih]
    simp [Finset.mem_insert]
    tauto


lemma mem_eraseAll (s : Finset Str) (l : List Str) (x : Str) :
    x ∈ eraseAll s l ↔ x ∈ s ∧ x ∉ l := by
  induction l generalizing s with
  | nil => simp [eraseAll]
  | cons a t ih =>
    show x ∈ eraseAll (s.erase a) t ↔ _
    rw [ih]
    simp [Finset.mem_erase]
    tauto

lemma toggleItem_involutive (s : Finset Str) (x : Str) :
    toggleItem (toggleItem s x) x = s := by
  unfold toggleItem
  by_cases hx : x ∈ s
  · rw [if_pos hx, if_neg (Finset.not_mem_erase x s), Finset.insert_erase hx]
  · rw [if_neg hx, if_pos (Finset.mem_insert_self x s), Finset.erase_insert hx]

/-! ## Lemmas: key-token discrimination for abstract printable keys -/

lemma ne_of_len1 {key : String} {c : Char} (hk : key.toList = [c]) (lit : String)
    (hlit : lit.toList.length ≠ 1) : key ≠ lit := by
  intro he
  rw [he] at hk
  rw [hk] at hlit
  simp at hlit

lemma char_of_key {key : String} {c : Char} (hk : key.toList = [c]) (lit : String) (d : Char)
    (hd : lit.toList = [d]) (he : key = lit) : c = d := by
  rw [he, hd, List.cons.injEq] at hk
  exact hk.1.symm

lemma ne_of_char {key : String} {c : Char} (hk : key.toList = [c]) (lit : String) (d : Char)
    (hd : lit.toList = [d]) (hcd : c ≠ d) : key ≠ lit :=
  fun he => hcd (char_of_key hk lit d hd he)

lemma ne_of_ctrl {key : String} {c : Char} (hk : key.toList = [c]) (h32 : 32 ≤ c.toNat)
    (lit : String) (d : Char) (hd : lit.toList = [d]) (hdlt : d.toNat < 32) : key ≠ lit := by
  refine ne_of_char hk lit d hd ?_
  intro hcd
  rw [hcd] at h32
  omega

/-! ## Lemmas: multi-select key dispatch -/

lemma multiStep_select_space (items : List Str) (cols : Nat) (st : MultiState)
    (hsm : st.selectMode = true) :
    multiStep items cols st " "
      = .cont { st with
          selected := toggleItem st.selected
            ((getFiltered items st.filter).getD st.selectIndex []) } := by
  unfold multiStep
  rw [if_neg (by decide), if_neg (by decide), if_neg (by decide), if_neg (by decide),
      if_neg (by decide), if_pos hsm]
  unfold selectStep
  rw [if_neg (by decide), if_neg (by decide), if_neg (by decide), if_neg (by decide),
      if_pos (Or.inl rfl)]

lemma multiStep_select_a (items : List Str) (cols : Nat) (st : MultiState)
    (hsm : st.selectMode = true) :
    multiStep items cols st "a"
      = .cont { st with
          selected :=
            if (getFiltered items st.filter).all (fun i => decide (i ∈ st.selected))
            then eraseAll st.selected (getFiltered items st.filter)
            else insertAll st.selected (getFiltered items st.filter) } := by
  unfold multiStep
  rw [if_neg (by decide), if_neg (by decide), if_neg (by decide), if_neg (by decide),
      if_neg (by decide), if_pos hsm]
  unfold selectStep
  rw [if_neg (by decide), if_neg (by decide), if_neg (by decide), if_neg (by decide),
      if_neg (by decide), if_pos (Or.inl rfl)]

lemma multiStep_select_down (items : List Str) (cols : Nat) (st : MultiState)
    (hsm : st.selectMode = true) :
    multiStep items cols st "\x1b[B"
      = .cont { st with
          selectIndex :=
            if st.selectIndex + cols < (getFiltered items st.filter).length
            then st.selectIndex + cols
            else st.selectIndex % cols } := by
  unfold multiStep
  rw [if_neg (by decide), if_neg (by decide), if_neg (by decide), if_neg (by decide),
      if_neg (by decide), if_pos hsm]
  unfold selectStep
  rw [if_neg (by decide), if_neg (by decide), if_pos (Or.inl rfl)]

lemma multiStep_typing_a (items : List Str) (cols : Nat) (st : MultiState)
    (hsm : st.selectMode = false) (hf : st.filter = []) :
    multiStep items cols st "a"
      = .cont { st with
          selected :=
            if items.all (fun i => decide (i ∈ st.selected)) then ∅
            else insertAll st.selected items } := by
  unfold multiStep
  rw [if_neg (by decide), if_neg (by decide), if_neg (by decide), if_neg (by decide),
      if_neg (by decide), if_neg (by simp [hsm])]
  unfold typingStep
  rw [if_neg (by decide), if_pos ⟨Or.inl rfl, hf⟩]

lemma multiStep_backspace (items : List Str) (cols : Nat) (st : MultiState)
    (hsm : st.selectMode = false) (hf : st.filter ≠ []) (hcur : 0 < st.filterCursor) :
    multiStep items cols st "\x7f"
      = .cont { st with
          filter := st.filter.take (st.filterCursor - 1) ++ st.filter.drop st.filterCursor,
          filterCursor := st.filterCursor - 1, selectIndex := 0 } := by
  unfold multiStep
  rw [if_neg (by decide), if_neg (by decide), if_pos (Or.inl rfl),
      if_neg (by simp [hsm]), if_neg hf, if_pos hcur]

lemma multiStep_ctrlu (items : List Str) (cols : Nat) (st : MultiState)
    (hsm : st.selectMode = false) :
    multiStep items cols st "\x15"
      = .cont { st with
          filter := st.filter.drop st.filterCursor, filterCursor := 0,
          selectIndex := 0 } := by
  unfold multiStep
  rw [if_neg (by decide), if_neg (by decide), if_neg (by decide), if_neg (by decide),
      if_neg (by decide), if_neg (by simp [hsm])]
  unfold typingStep
  rw [if_neg (by decide),
      if_neg (fun hh => by rcases hh.1 with h | h <;> revert h <;> decide),
      if_neg (by decide), if_neg (by decide), if_neg (by decide), if_neg (by decide),
      if_pos rfl]

lemma multiStep_delete (items : List Str) (cols : Nat) (st : MultiState)
    (hsm : st.selectMode = false) (hcur : st.filterCursor < st.filter.length) :
    multiStep items cols st "\x1b[3~"
      = .cont { st with
          filter := st.filter.take st.filterCursor ++ st.filter.drop (st.filterCursor + 1),
          selectIndex := 0 } := by
  unfold multiStep
  rw [if_neg (by decide), if_neg (by decide), if_neg (by decide), if_neg (by decide),
      if_neg (by decide), if_neg (by simp [hsm])]
  unfold typingStep
  rw [if_neg (by decide),
      if_neg (fun hh => by rcases hh.1 with h | h <;> revert h <;> decide),
      if_neg (by decide), if_neg (by decide), if_neg (by decide), if_neg (by decide),
      if_neg (by decide), if_pos rfl, if_pos hcur]

lemma multiStep_printable (items : List Str) (cols : Nat) (st : MultiState) (key : String)
    (c : Char) (hk : key.toList = [c]) (h32 : 32 ≤ c.toNat)
    (hsm : st.selectMode = false) (hc7f : c ≠ '\x7f')
    (hna : ¬((c = 'a' ∨ c = 'A') ∧ st.filter = [])) :
    multiStep items cols st key
      = .cont { st with
          filter := st.filter.take st.filterCursor ++ [c] ++ st.filter.drop st.filterCursor,
          filterCursor := st.filterCursor + 1,
          selectIndex :=
            if (getFiltered items (st.filter.take st.filterCursor ++ [c]
                  ++ st.filter.drop st.filterCursor)).length ≤ st.selectIndex
            then (getFiltered items (st.filter.take st.filterCursor ++ [c]
                  ++ st.filter.drop st.filterCursor)).length - 1
            else st.selectIndex } := by
  unfold multiStep
  rw [if_neg (ne_of_ctrl hk h32 "\x03" '\x03' rfl (by decide)),
      if_neg (ne_of_ctrl hk h32 "\x1b" '\x1b' rfl (by decide)),
      if_neg (not_or.mpr ⟨ne_of_char hk "\x7f" '\x7f' rfl hc7f,
        ne_of_ctrl hk h32 "\x08" '\x08' rfl (by decide)⟩),
      if_neg (ne_of_ctrl hk h32 "\t" '\t' rfl (by decide)),
      if_neg (ne_of_len1 hk "\x1b[Z" (by decide)),
      if_neg (by simp [hsm])]
  unfold typingStep
  rw [if_neg (not_or.mpr ⟨ne_of_len1 hk "\x1b[A" (by decide),
        not_or.mpr ⟨ne_of_len1 hk "\x1bOA" (by decide),
        not_or.mpr ⟨ne_of_len1 hk "\x1b[B" (by decide),
        not_or.mpr ⟨ne_of_len1 hk "\x1bOB" (by decide),
        not_or.mpr ⟨ne_of_ctrl hk h32 "\r" '\r' rfl (by decide),
        ne_of_ctrl hk h32 "\n" '\n' rfl (by decide)⟩⟩⟩⟩⟩),
      if_neg (fun hh => hna ⟨hh.1.elim
        (fun he => Or.inl (char_of_key hk "a" 'a' rfl he))
        (fun he => Or.inr (char_of_key hk "A" 'A' rfl he)), hh.2⟩),
      if_neg (not_or.mpr ⟨ne_of_len1 hk "\x1b[D" (by decide),
        ne_of_len1 hk "\x1bOD" (by decide)⟩),
      if_neg (not_or.mpr ⟨ne_of_len1 hk "\x1b[C" (by decide),
        ne_of_len1 hk "\x1bOC" (by decide)⟩),
      if_neg (not_or.mpr ⟨ne_of_len1 hk "\x1b[H" (by decide),
        not_or.mpr ⟨ne_of_len1 hk "\x1bOH" (by decide),
        not_or.mpr ⟨ne_of_len1 hk "\x1b[1~" (by decide),
        ne_of_ctrl hk h32 "\x01" '\x01' rfl (by decide)⟩⟩⟩),
      if_neg (not_or.mpr ⟨ne_of_len1 hk "\x1b[F" (by decide),
        not_or.mpr ⟨ne_of_len1 hk "\x1bOF" (by decide),
        not_or.mpr ⟨ne_of_len1 hk "\x1b[4~" (by decide),
        ne_of_ctrl hk h32 "\x05" '\x05' rfl (by decide)⟩⟩⟩),
      if_neg (ne_of_ctrl hk h32 "\x15" '\x15' rfl (by decide)),
      if_neg (ne_of_len1 hk "\x1b[3~" (by decide))]
  simp only [hk]
  rw [if_pos h32]

/-! Constructor-form restatements of the dispatch lemmas, used after
destructuring the loop state (all record projections reduced). -/

lemma multiStep_select_space_mk (items : List Str) (cols : Nat) (f : Str) (fc si : Nat)
    (sel : Finset Str) :
    multiStep items cols ⟨f, fc, true, si, sel⟩ " "
      = .cont ⟨f, fc, true, si, toggleItem sel ((getFiltered items f).getD si [])⟩ :=
  multiStep_select_space items cols ⟨f, fc, true, si, sel⟩ rfl

lemma multiStep_select_a_mk (items : List Str) (cols : Nat) (f : Str) (fc si : Nat)
    (sel : Finset Str) :
    multiStep items cols ⟨f, fc, true, si, sel⟩ "a"
      = .cont ⟨f, fc, true, si,
          if (getFiltered items f).all (fun i => decide (i ∈ sel))
          then eraseAll sel (getFiltered items f)
          else insertAll sel (getFiltered items f)⟩ :=
  multiStep_select_a items cols ⟨f, fc, true, si, sel⟩ rfl

lemma multiStep_typing_a_mk (items : List Str) (cols : Nat) (fc si : Nat)
    (sel : Finset Str) :
    multiStep items cols ⟨[], fc, false, si, sel⟩ "a"
      = .cont ⟨[], fc, false, si,
          if items.all (fun i => decide (i ∈ sel)) then ∅ else insertAll sel items⟩ :=
  multiStep_typing_a items cols ⟨[], fc, false, si, sel⟩ rfl rfl

/-! ## Claim C9 -/

/-- C9 counterexample: with the single item x highlighted-set filtered
and already selected, the select-mode select-all key pressed twice
first clears and then RE-SELECTS the filtered item: after two presses
the item is selected again, not unselected as the claim states. -/
theorem multiselect_toggle_counterexample :
    multiStep [['x']] 1 ⟨[], 0, true, 0, {['x']}⟩ "a" = .cont ⟨[], 0, true, 0, ∅⟩
  ∧ multiStep [['x']] 1 ⟨[], 0, true, 0, ∅⟩ "a" = .cont ⟨[], 0, true, 0, {['x']}⟩
  ∧ (['x'] : Str) ∈ ({['x']} : Finset Str) := by
  decide

/-- C9 amended: (a) toggling the same highlighted item twice with Space
in select mode restores the selected set exactly; (b) the select-mode
select-all key flips the all-selected state, so pressing it twice on an
unchanged filtered set leaves every filtered item unselected exactly
when not all filtered items were selected to begin with. -/
theorem multiselect_toggle_flip (items : List Str) (cols : Nat) (st : MultiState)
    (hsm : st.selectMode = true) :
    (∃ st1 st2, multiStep items cols st " " = .cont st1
      ∧ multiStep items cols st1 " " = .cont st2
      ∧ st2.selected = st.selected)
  ∧ ((¬ ∀ i ∈ getFiltered items st.filter, i ∈ st.selected) →
      ∃ st1 st2, multiStep items cols st "a" = .cont st1
        ∧ multiStep items cols st1 "a" = .cont st2
        ∧ ∀ i ∈ getFiltered items st.filter, i ∉ st2.selected) := by
  obtain ⟨f, fc, sm, si, sel⟩ := st
  replace hsm : sm = true := hsm
  subst hsm
  constructor
  · exact ⟨_, _, multiStep_select_space_mk items cols f fc si sel,
      multiStep_select_space_mk items cols f fc si _,
      toggleItem_involutive sel ((getFiltered items f).getD si [])⟩
  · intro hnot
    have hfalse : (getFiltered items f).all (fun i => decide (i ∈ sel)) = false := by
      cases hb : (getFiltered items f).all (fun i => decide (i ∈ sel)) with
      | false => rfl
      | true =>
        exact absurd (fun i hi => of_decide_eq_true (List.all_eq_true.mp hb i hi)) hnot
    have h1 := multiStep_select_a_mk items cols f fc si sel
    rw [hfalse, if_neg Bool.false_ne_true] at h1
    have h2 := multiStep_select_a_mk items cols f fc si (insertAll sel (getFiltered items f))
    have htrue : (getFiltered items f).all
        (fun i => decide (i ∈ insertAll sel (getFiltered items f))) = true :=
      List.all_eq_true.mpr (fun i hi => decide_eq_true ((mem_insertAll _ _ _).mpr (Or.inr hi)))
    rw [htrue, if_pos rfl] at h2
    refine ⟨_, _, h1, h2, ?_⟩
    intro i hi hmem
    exact ((mem_eraseAll _ _ _).mp hmem).2 hi

/-- Witness for `multiselect_toggle_flip`: two items, one selected. -/
theorem multiselect_toggle_flip_witness :
    (⟨[], 0, true, 0, {['x']}⟩ : MultiState).selectMode = true
  ∧ (∃ st1 st2, multiStep [['x'], ['y']] 1 ⟨[], 0, true, 0, {['x']}⟩ " " = .cont st1
      ∧ multiStep [['x'], ['y']] 1 st1 " " = .cont st2
      ∧ st2.selected = (⟨[], 0, true, 0, {['x']}⟩ : MultiState).selected)
  ∧ (¬ ∀ i ∈ getFiltered [['x'], ['y']] [], i ∈ ({['x']} : Finset Str)) :=
  ⟨rfl,
   (multiselect_toggle_flip [['x'], ['y']] 1 ⟨[], 0, true, 0, {['x']}⟩ rfl).1,
   by decide⟩

/-! ## Claim C10 -/

/-- C10: in typing mode with an empty filter, when every item is
already in the caller-owned set, the select-all key clears the ENTIRE
set — including elements the caller placed in it that do not occur in
items — whereas the select-mode select-all toggle only adds or removes
currently filtered items and leaves the membership of every other
element unchanged (in the all-selected case it removes exactly the
filtered items). -/
theorem multiselect_select_all_frame (items : List Str) (cols : Nat) (st : MultiState) :
    (st.selectMode = false → st.filter = [] → (∀ i ∈ items, i ∈ st.selected) →
      ∃ st1, multiStep items cols st "a" = .cont st1 ∧ st1.selected = ∅
        ∧ ∀ y : Str, y ∉ st1.selected)
  ∧ (st.selectMode = true →
      ∃ st1, multiStep items cols st "a" = .cont st1
        ∧ (∀ y : Str, y ∉ getFiltered items st.filter →
            (y ∈ st1.selected ↔ y ∈ st.selected))
        ∧ ((∀ i ∈ getFiltered items st.filter, i ∈ st.selected) →
            st1.selected = eraseAll st.selected (getFiltered items st.filter))) := by
  obtain ⟨f, fc, sm, si, sel⟩ := st
  constructor
  · intro hsm hf hall
    replace hsm : sm = false := hsm
    replace hf : f = [] := hf
    subst hsm
    subst hf
    have htrue : items.all (fun i => decide (i ∈ sel)) = true :=
      List.all_eq_true.mpr (fun i hi => decide_eq_true (hall i hi))
    have h1 := multiStep_typing_a_mk items cols fc si sel
    rw [htrue, if_pos rfl] at h1
    exact ⟨_, h1, rfl, fun y => Finset.not_mem_empty y⟩
  · intro hsm
    replace hsm : sm = true := hsm
    subst hsm
    refine ⟨_, multiStep_select_a_mk items cols f fc si sel, ?_, ?_⟩
    · intro y hy
      replace hy : y ∉ getFiltered items f := hy
      show y ∈ (if (getFiltered items f).all (fun i => decide (i ∈ sel))
          then eraseAll sel (getFiltered items f)
          else insertAll sel (getFiltered items f)) ↔ y ∈ sel
      cases hb : (getFiltered items f).all (fun i => decide (i ∈ sel)) with
      | true =>
        rw [if_pos rfl, mem_eraseAll]
        exact ⟨fun h => h.1, fun h => ⟨h, hy⟩⟩
      | false =>
        rw [if_neg Bool.false_ne_true, mem_insertAll]
        exact ⟨fun h => h.elim id (fun hl => absurd hl hy), Or.inl⟩
    · intro hall2
      have htrue : (getFiltered items f).all (fun i => decide (i ∈ sel)) = true :=
        List.all_eq_true.mpr (fun i hi => decide_eq_true (hall2 i hi))
      show (if (getFiltered items f).all (fun i => decide (i ∈ sel))
          then eraseAll sel (getFiltered items f)
          else insertAll sel (getFiltered items f)) = eraseAll sel (getFiltered items f)
      rw [htrue, if_pos rfl]

/-- Witness for `multiselect_select_all_frame`: the caller put the
stray element z (not an item) into the set; typing-mode select-all from
the all-items-selected state clears it too, while the select-mode
toggle leaves it alone. -/
theorem multiselect_select_all_frame_witness :
    (∃ st1, multiStep [['x']] 1 ⟨[], 0, false, 0, {['x'], ['z']}⟩ "a" = .cont st1
      ∧ st1.selected = ∅ ∧ ∀ y : Str, y ∉ st1.selected)
  ∧ (∃ st1, multiStep [['x']] 1 ⟨[], 0, true, 0, {['x'], ['z']}⟩ "a" = .cont st1
      ∧ (∀ y : Str, y ∉ getFiltered [['x']] [] →
          (y ∈ st1.selected ↔ y ∈ ({['x'], ['z']} : Finset Str)))
      ∧ ((∀ i ∈ getFiltered [['x']] [], i ∈ ({['x'], ['z']} : Finset Str)) →
          st1.selected = eraseAll {['x'], ['z']} (getFiltered [['x']] []))) :=
  ⟨(multiselect_select_all_frame [['x']] 1 ⟨[], 0, false, 0, {['x'], ['z']}⟩).1
     rfl rfl (by decide),
   (multiselect_select_all_frame [['x']] 1 ⟨[], 0, true, 0, {['x'], ['z']}⟩).2 rfl⟩

/-! ## Claim C4 -/

/-- C4 counterexample: with items xx and xy, entering select mode and
advancing to index 1 (Tab, Tab), then typing x — a keystroke that
changes the filter from empty to x — leaves selectIndex at 1, not 0
as the claim states (the printable branch only clamps). -/
theorem filter_reset_counterexample :
    askMultiRun 80 [['x', 'x'], ['x', 'y']] (initMultiState ∅) ["\t", "\t", "x"]
        = .pending ⟨['x'], 1, false, 1, ∅⟩
  ∧ (1 : Nat) ≠ 0 := by
  decide

/-- C4 amended: Backspace (when it deletes a character), forward-Delete
(when it deletes) and Ctrl-U reset selectIndex to 0; a typed printable
character does NOT reset it — it only clamps selectIndex to the last
index of the new filtered list when it is out of range and leaves it
unchanged otherwise. -/
theorem filter_keystroke_select_index (items : List Str) (cols : Nat) (st : MultiState)
    (key : String) (c : Char) (hsm : st.selectMode = false) :
    (st.filter ≠ [] → 0 < st.filterCursor →
      ∃ st1, multiStep items cols st "\x7f" = .cont st1 ∧ st1.selectIndex = 0)
  ∧ (∃ st1, multiStep items cols st "\x15" = .cont st1 ∧ st1.selectIndex = 0)
  ∧ (st.filterCursor < st.filter.length →
      ∃ st1, multiStep items cols st "\x1b[3~" = .cont st1 ∧ st1.selectIndex = 0)
  ∧ (key.toList = [c] → 32 ≤ c.toNat → c ≠ '\x7f' →
      ¬((c = 'a' ∨ c = 'A') ∧ st.filter = []) →
      ∃ st1, multiStep items cols st key = .cont st1
        ∧ st1.filter = st.filter.take st.filterCursor ++ [c]
            ++ st.filter.drop st.filterCursor
        ∧ st1.selectIndex =
            (if (getFiltered items st1.filter).length ≤ st.selectIndex
             then (getFiltered items st1.filter).length - 1
             else st.selectIndex)) :=
  ⟨fun hf hcur => ⟨_, multiStep_backspace items cols st hsm hf hcur, rfl⟩,
   ⟨_, multiStep_ctrlu items cols st hsm, rfl⟩,
   fun hcur => ⟨_, multiStep_delete items cols st hsm hcur, rfl⟩,
   fun hk h32 h7f hna =>
     ⟨_, multiStep_printable items cols st key c hk h32 hsm h7f hna, rfl, rfl⟩⟩

/-- Witness for `filter_keystroke_select_index`: Backspace on filter x
with the cursor after it, and typing y with items xy. -/
theorem filter_keystroke_select_index_witness :
    (∃ st1, multiStep [['x', 'y']] 9 ⟨['x'], 1, false, 0, ∅⟩ "\x7f" = .cont st1
      ∧ st1.selectIndex = 0)
  ∧ (∃ st1, multiStep [['x', 'y']] 9 ⟨['x'], 1, false, 0, ∅⟩ "y" = .cont st1
      ∧ st1.filter = (['x'] : Str).take 1 ++ ['y'] ++ (['x'] : Str).drop 1
      ∧ st1.selectIndex =
          (if (getFiltered [['x', 'y']] st1.filter).length ≤ 0
           then (getFiltered [['x', 'y']] st1.filter).length - 1
           else 0)) :=
  ⟨(filter_keystroke_select_index [['x', 'y']] 9 ⟨['x'], 1, false, 0, ∅⟩ "y" 'y' rfl).1
     (by decide) (by decide),
   (filter_keystroke_select_index [['x', 'y']] 9 ⟨['x'], 1, false, 0, ∅⟩ "y" 'y' rfl).2.2.2
     (by decide) (by decide) (by decide) (by decide)⟩

/-! ## Claim C3 -/

/-- C3 counterexample: items are ten two-character labels containing x
plus one 24-character label; the session column count from the full
list is 2, while the filtered list after typing x would give 9. After
the filter-changing keystroke x, entering select mode and pressing
Down moves the highlight by 2 (the entry-computed count), landing on
index 2 — under the claim (count recomputed from the filtered labels,
9 < 10 filtered items) it would land on index 9. -/
theorem grid_cols_counterexample :
    msCols 80 [['x', '0'], ['x', '1'], ['x', '2'], ['x', '3'], ['x', '4'], ['x', '5'],
        ['x', '6'], ['x', '7'], ['x', '8'], ['x', '9'], List.replicate 24 'b'] = 2
  ∧ msCols 80 (getFiltered [['x', '0'], ['x', '1'], ['x', '2'], ['x', '3'], ['x', '4'],
        ['x', '5'], ['x', '6'], ['x', '7'], ['x', '8'], ['x', '9'],
        List.replicate 24 'b'] ['x']) = 9
  ∧ (getFiltered [['x', '0'], ['x', '1'], ['x', '2'], ['x', '3'], ['x', '4'], ['x', '5'],
        ['x', '6'], ['x', '7'], ['x', '8'], ['x', '9'],
        List.replicate 24 'b'] ['x']).length = 10
  ∧ askMultiRun 80 [['x', '0'], ['x', '1'], ['x', '2'], ['x', '3'], ['x', '4'], ['x', '5'],
        ['x', '6'], ['x', '7'], ['x', '8'], ['x', '9'], List.replicate 24 'b']
        (initMultiState ∅) ["x", "\t", "\x1b[B"]
      = .pending ⟨['x'], 1, true, 2, ∅⟩
  ∧ (2 : Nat) ≠ 0 + 9 := by
  decide

/-- C3 amended: the grid column count is computed once at entry from
the longest label of the FULL unfiltered item list
(`max(1, floor((termCols - 2) / (maxItemLen + 6)))`) and is never
recomputed: it does not depend on the loop state at all, and
select-mode Down navigation always jumps by that entry-computed count
whatever the current filter is. -/
theorem grid_cols_fixed (termCols : Nat) (items : List Str) (st st2 : MultiState)
    (hsm : st.selectMode = true) :
    msColsUsed termCols items st = msColsUsed termCols items st2
  ∧ msColsUsed termCols items st = msCols termCols items
  ∧ askMultiStep termCols items st "\x1b[B"
      = .cont { st with
          selectIndex :=
            if st.selectIndex + msCols termCols items < (getFiltered items st.filter).length
            then st.selectIndex + msCols termCols items
            else st.selectIndex % msCols termCols items } :=
  ⟨rfl, rfl, multiStep_select_down items (msCols termCols items) st hsm⟩

/-- Witness for `grid_cols_fixed` at the counterexample item list. -/
theorem grid_cols_fixed_witness :
    (⟨['x'], 1, true, 0, ∅⟩ : MultiState).selectMode = true
  ∧ askMultiStep 80 [['x', '0'], ['x', '1'], ['x', '2'], List.replicate 24 'b']
        ⟨['x'], 1, true, 0, ∅⟩ "\x1b[B"
      = .cont { (⟨['x'], 1, true, 0, ∅⟩ : MultiState) with
          selectIndex :=
            if 0 + msCols 80 [['x', '0'], ['x', '1'], ['x', '2'], List.replicate 24 'b']
                < (getFiltered [['x', '0'], ['x', '1'], ['x', '2'],
                    List.replicate 24 'b'] ['x']).length
            then 0 + msCols 80 [['x', '0'], ['x', '1'], ['x', '2'], List.replicate 24 'b']
            else 0 % msCols 80 [['x', '0'], ['x', '1'], ['x', '2'], List.replicate 24 'b'] } :=
  ⟨rfl,
   (grid_cols_fixed 80 [['x', '0'], ['x', '1'], ['x', '2'], List.replicate 24 'b']
     ⟨['x'], 1, true, 0, ∅⟩ ⟨['x'], 1, true, 0, ∅⟩ rfl).2.2⟩

end Pgdev
